import Mathlib

/-!
Shallow embedding of the CITADEL rule-based classification and anomaly core:
the support-ticket classifier (`classifyTicket`), the expense categorizer
(`categorizeExpense`), and the expense anomaly flagging batch computation
(`anomalies`), translated from the React sources.

JavaScript numbers are modelled as `ℚ`; the `Math.random()`-derived jitter
that the source adds to confidence scores is made an explicit parameter
(`j : ℚ`, with `0 ≤ j` standing for `Math.random() * 10 ∈ [0, 10)`).
`String.prototype.includes` is modelled as substring containment on the
character list, and `toLowerCase` as per-character lowering (all keyword
tables are ASCII).
-/

namespace Citadel

/-- JS `s.toLowerCase()`: per-character lowering. -/
def jsToLower (s : String) : String :=
  String.mk (s.data.map Char.toLower)

/-- JS `hay.includes(pat)`: `pat` occurs as a contiguous substring of `hay`. -/
def jsIncludes (hay pat : String) : Bool :=
  hay.data.tails.any (fun t => pat.data.isPrefixOf t)

/-- The reusable keyword-hit primitive of the source:
`keywords.filter(kw => text.includes(kw)).length`. -/
def countHits (text : String) (kws : List String) : Nat :=
  (kws.filter (fun k => jsIncludes text k)).length

/-- One step of the source's `forEach` selection loop:
`if (score > bestScore) { bestScore = score; bestCategory = cat; }`. -/
def bestStep (best p : String × Nat) : String × Nat :=
  if p.2 > best.2 then p else best

/-- The whole selection loop over the scored categories, started from the
fallback category with score `0` (the source's `let bestCategory = fallback;
let bestScore = 0;`). -/
def bestOf (pairs : List (String × Nat)) (fallbackName : String) : String × Nat :=
  pairs.foldl bestStep (fallbackName, 0)

/-- Static attributes attached to a ticket category in `classifyTicket`. -/
structure CatInfo where
  keywords : List String
  priority : String
  dept : String
deriving DecidableEq

/-- The `categories` object literal of `classifyTicket`, in declaration order. -/
def ticketCategories : List (String × CatInfo) :=
  [ ("Infrastructure", ⟨["road", "bridge", "building", "pothole", "construction", "repair", "maintenance", "broken", "damage"], "high", "Public Works"⟩),
    ("Water Supply", ⟨["water", "pipe", "leakage", "supply", "sewage", "drainage", "flood", "contamination"], "critical", "Water Board"⟩),
    ("Electricity", ⟨["power", "electricity", "outage", "transformer", "wire", "voltage", "electric", "light", "pole"], "high", "Power Distribution"⟩),
    ("Sanitation", ⟨["garbage", "waste", "cleaning", "hygiene", "trash", "dump", "sanitation", "smell"], "medium", "Municipal Sanitation"⟩),
    ("Traffic", ⟨["traffic", "signal", "parking", "accident", "speed", "jam", "congestion", "vehicle"], "high", "Traffic Police"⟩),
    ("Public Safety", ⟨["safety", "crime", "theft", "harassment", "violence", "police", "security", "emergency"], "critical", "Law Enforcement"⟩),
    ("Education", ⟨["school", "education", "teacher", "student", "college", "admission", "scholarship"], "medium", "Education Board"⟩),
    ("Healthcare", ⟨["hospital", "health", "medicine", "doctor", "clinic", "vaccination", "disease"], "high", "Health Department"⟩),
    ("General", ⟨[], "low", "General Administration"⟩) ]

/-- Attributes of the `General` fallback entry; `List.lookup` below never
actually falls through to this default because the selected category name is
always a key of `ticketCategories` (see the totality theorem). -/
def defaultCatInfo : CatInfo :=
  ⟨[], "low", "General Administration"⟩

/-- `sentimentWords.positive` of `classifyTicket`. -/
def positiveWords : List String :=
  ["thank", "good", "great", "excellent", "happy", "appreciate", "helpful"]

/-- `sentimentWords.negative` of `classifyTicket`. -/
def negativeWords : List String :=
  ["bad", "terrible", "worst", "angry", "frustrat", "disappoint", "horrible", "urgent", "compla"]

/-- The per-text scored category list for tickets. -/
def scoredTickets (text : String) : List (String × Nat) :=
  ticketCategories.map (fun c => (c.1, countHits text c.2.keywords))

/-- `Math.min(95, 60 + bestScore * 12 + Math.random() * 10)` with the random
term as the parameter `j`. -/
def ticketConfidence (score : Nat) (j : ℚ) : ℚ :=
  min 95 (60 + (score : ℚ) * 12 + j)

/-- `Math.min(95, 50 + bestScore * 15 + Math.random() * 10)` of
`categorizeExpense`, random term as `j`. -/
def expenseConfidence (score : Nat) (j : ℚ) : ℚ :=
  min 95 (50 + (score : ℚ) * 15 + j)

/-- The clamp on the fake-news authenticity score
(`Math.max(5, Math.min(98, score + (Math.random() * 10 - 5)))` in
`analyzeText`), with the raw score and the jitter as parameters. -/
def newsScoreClamp (raw j : ℚ) : ℚ :=
  max 5 (min 98 (raw + j))

/-- Result record of `classifyTicket` (the numeric confidence before the
`.toFixed(1)` string formatting). -/
structure TicketResult where
  category : String
  priority : String
  department : String
  sentiment : String
  confidence : ℚ
  estimated_response : String
deriving DecidableEq

/-- `classifyTicket(subject, description)` of the support-ticket module,
with the confidence jitter `Math.random() * 10` passed as `j`. -/
def classifyTicket (subject description : String) (j : ℚ) : TicketResult :=
  let text := jsToLower (subject ++ " " ++ description)
  let best := bestOf (scoredTickets text) "General"
  let posCount := countHits text positiveWords
  let negCount := countHits text negativeWords
  let sentiment :=
    if posCount > negCount then "Positive"
    else if negCount > posCount then "Negative"
    else "Neutral"
  let catInfo := (ticketCategories.lookup best.1).getD defaultCatInfo
  { category := best.1
    priority := catInfo.priority
    department := catInfo.dept
    sentiment := sentiment
    confidence := ticketConfidence best.2 j
    estimated_response :=
      if catInfo.priority = "critical" then "2-4 hours"
      else if catInfo.priority = "high" then "24-48 hours"
      else "3-5 days" }

/-- The `categoryKeywords` object literal of the expense categorizer, in
declaration order. -/
def categoryKeywords : List (String × List String) :=
  [ ("Food & Dining", ["restaurant", "food", "pizza", "burger", "coffee", "cafe", "lunch", "dinner", "breakfast", "eat", "dine", "swiggy", "zomato", "uber eats", "meal", "snack", "drink", "bakery", "ice cream"]),
    ("Transportation", ["uber", "ola", "taxi", "fuel", "petrol", "diesel", "gas", "metro", "bus", "train", "flight", "parking", "toll", "auto", "cab", "commute", "travel"]),
    ("Shopping", ["amazon", "flipkart", "mall", "store", "shop", "clothing", "shoes", "electronic", "gadget", "fashion", "retail", "market", "purchase", "buy"]),
    ("Utilities", ["electricity", "water", "gas", "internet", "wifi", "phone", "mobile", "recharge", "bill", "broadband", "prepaid", "postpaid", "maintenance"]),
    ("Entertainment", ["movie", "netflix", "spotify", "gaming", "concert", "theater", "subscription", "disney", "prime", "youtube", "music", "book", "magazine"]),
    ("Healthcare", ["doctor", "medicine", "pharmacy", "hospital", "clinic", "dental", "health", "medical", "lab", "test", "insurance", "therapy", "consultation"]),
    ("Education", ["course", "tuition", "book", "udemy", "coursera", "school", "college", "training", "certification", "exam", "class", "tutorial"]),
    ("Groceries", ["grocery", "supermarket", "vegetables", "fruits", "milk", "bread", "bigbasket", "dmart", "reliance fresh", "organic", "provisions"]),
    ("Rent & Housing", ["rent", "housing", "apartment", "flat", "maintenance", "society", "emi", "mortgage", "property"]),
    ("Personal Care", ["salon", "spa", "haircut", "beauty", "cosmetic", "gym", "fitness", "yoga", "grooming"]) ]

/-- The per-text scored category list for expenses. -/
def scoredExpenses (text : String) : List (String × Nat) :=
  categoryKeywords.map (fun c => (c.1, countHits text c.2))

/-- Result record of `categorizeExpense` (numeric confidence before
`.toFixed(1)`). -/
structure ExpenseResult where
  category : String
  confidence : ℚ
deriving DecidableEq

/-- `categorizeExpense(description)` of the expense module, jitter as `j`. -/
def categorizeExpense (description : String) (j : ℚ) : ExpenseResult :=
  let lower := jsToLower description
  let best := bestOf (scoredExpenses lower) "Other"
  { category := best.1, confidence := expenseConfidence best.2 j }

/-- A raw expense row (description and amount), as parsed from CSV or the
manual form. -/
structure Expense where
  description : String
  amount : ℚ
deriving DecidableEq

/-- An expense after the `categorized` step spreads the result of
`categorizeExpense` onto the row. -/
structure Categorized where
  description : String
  amount : ℚ
  category : String
  confidence : ℚ
deriving DecidableEq

/-- The amounts of the records sharing `cat`, in batch order: the
`categoryStats[e.category]` array the `anomalies` memo builds by pushing
each record's amount under its category key. -/
def amountsFor (recs : List Categorized) (cat : String) : List ℚ :=
  (recs.filter (fun r => r.category == cat)).map (fun r => r.amount)

/-- `amounts.reduce((s, v) => s + v, 0) / amounts.length`. -/
def popMean (l : List ℚ) : ℚ :=
  l.sum / (l.length : ℚ)

/-- The population variance the source takes the square root of:
`amounts.reduce((s, v) => s + (v - mean) ** 2, 0) / amounts.length`. -/
def popVar (l : List ℚ) : ℚ :=
  (l.map (fun v => (v - popMean l) ^ 2)).sum / (l.length : ℚ)

/-- The flag predicate of the `anomalies` memo for one record `e` against the
batch `recs`, with the threshold multiplier `k` (the source hardcodes `k = 2`
in `Math.abs(e.amount - mean) > 2 * std`).  The source's condition
`std > 0 && |e.amount - mean| > k * std` with `std = Math.sqrt(var)` is
stated square-root-free as `0 < var ∧ k²·var < (e.amount − mean)²`, which is
equivalent for `k ≥ 0` (see `sqrt_flag_iff_sq`). -/
def isAnomaly (recs : List Categorized) (k : ℚ) (e : Categorized) : Bool :=
  if (amountsFor recs e.category).length < 2 then false
  else decide (0 < popVar (amountsFor recs e.category) ∧
    k ^ 2 * popVar (amountsFor recs e.category) <
      (e.amount - popMean (amountsFor recs e.category)) ^ 2)

/-- The `anomalies` batch computation with an explicit threshold multiplier:
`categorized.filter(e => ...)`. -/
def anomaliesK (k : ℚ) (recs : List Categorized) : List Categorized :=
  recs.filter (isAnomaly recs k)

/-- The `anomalies` memo as written, with the source's hardcoded `2 * std`. -/
def anomalies (recs : List Categorized) : List Categorized :=
  anomaliesK 2 recs

/-- One record of the `categorized` memo:
`{ ...e, ...categorizeExpense(e.description) }` with jitter `j`. -/
def mkCategorized (e : Expense) (j : ℚ) : Categorized :=
  let r := categorizeExpense e.description j
  ⟨e.description, e.amount, r.category, r.confidence⟩

/-- The `categorized` memo, `expenses.map(e => ({...e,
...categorizeExpense(e.description)}))`, with the fresh `Math.random()` draw
of each call modelled as consuming a jitter stream `jit` (record `i` receives
`jit i`). -/
def categorizedWith (jit : ℕ → ℚ) : List Expense → List Categorized
  | [] => []
  | e :: es => mkCategorized e (jit 0) :: categorizedWith (fun i => jit (i + 1)) es

/-- The spec's worked outlier batch: one group with values 100, 105, 98, 950. -/
def demoFood : List Categorized :=
  [ ⟨"lunch a", 100, "Food & Dining", 0⟩,
    ⟨"lunch b", 105, "Food & Dining", 0⟩,
    ⟨"lunch c", 98, "Food & Dining", 0⟩,
    ⟨"banquet", 950, "Food & Dining", 0⟩ ]

/-- The 950-amount record of `demoFood`. -/
def rec950 : Categorized :=
  ⟨"banquet", 950, "Food & Dining", 0⟩

/-- The scored pairs `classifyTicket` selects over for a given subject and
description. -/
def ticketPairs (s d : String) : List (String × Nat) :=
  scoredTickets (jsToLower (s ++ " " ++ d))

/-- The scored pairs `categorizeExpense` selects over for a description. -/
def expensePairs (d : String) : List (String × Nat) :=
  scoredExpenses (jsToLower d)

/-- The largest raw score among the scored category pairs. -/
def maxScore (pairs : List (String × Nat)) : Nat :=
  pairs.foldr (fun p m => max p.2 m) 0

/-! ### Lemmas about the selection loop -/

lemma le_maxScore {pairs : List (String × Nat)} :
    ∀ p ∈ pairs, p.2 ≤ maxScore pairs := by
  induction pairs with
  | nil => intro p hp; cases hp
  | cons q t ih =>
    intro p hp
    rcases List.mem_cons.mp hp with rfl | hp
    · exact le_max_left _ _
    · exact le_trans (ih p hp) (le_max_right _ _)

lemma foldl_bestStep_stay (l : List (String × Nat)) (acc : String × Nat)
    (h : ∀ p ∈ l, p.2 ≤ acc.2) : l.foldl bestStep acc = acc := by
  induction l with
  | nil => rfl
  | cons q t ih =>
    have hq : bestStep acc q = acc := by
      unfold bestStep
      rw [if_neg (by exact Nat.not_lt.mpr (h q (List.mem_cons_self _ _)))]
    simp only [List.foldl_cons, hq]
    exact ih (fun p hp => h p (List.mem_cons_of_mem _ hp))

lemma foldl_bestStep_mem (l : List (String × Nat)) (acc : String × Nat) :
    l.foldl bestStep acc = acc ∨ l.foldl bestStep acc ∈ l := by
  induction l generalizing acc with
  | nil => exact Or.inl rfl
  | cons q t ih =>
    simp only [List.foldl_cons]
    by_cases hcmp : q.2 > acc.2
    · have hstep : bestStep acc q = q := by unfold bestStep; rw [if_pos hcmp]
      rw [hstep]
      rcases ih q with h | h
      · exact Or.inr (by rw [h]; exact List.mem_cons_self _ _)
      · exact Or.inr (List.mem_cons_of_mem _ h)
    · have hstep : bestStep acc q = acc := by unfold bestStep; rw [if_neg hcmp]
      rw [hstep]
      rcases ih acc with h | h
      · exact Or.inl h
      · exact Or.inr (List.mem_cons_of_mem _ h)

/-- With strict `>` in the update, the loop lands on the first pair attaining
the maximum, provided the maximum beats the accumulator. -/
lemma foldl_bestStep_first_max :
    ∀ (l : List (String × Nat)) (acc : String × Nat), acc.2 < maxScore l →
      ∃ k, ∃ hk : k < l.length, (l.get ⟨k, hk⟩).2 = maxScore l ∧
        (∀ i (hi : i < l.length), i < k → (l.get ⟨i, hi⟩).2 < maxScore l) ∧
        l.foldl bestStep acc = l.get ⟨k, hk⟩ := by
  intro l
  induction l with
  | nil => intro acc hacc; exact absurd hacc (Nat.not_lt_zero _)
  | cons q t ih =>
    intro acc hacc
    have hm : maxScore (q :: t) = max q.2 (maxScore t) := rfl
    by_cases h1 : maxScore t ≤ q.2
    · have hq : maxScore (q :: t) = q.2 := by rw [hm]; exact max_eq_left h1
      have hstep : bestStep acc q = q := by
        unfold bestStep; rw [if_pos (by rw [hq] at hacc; exact hacc)]
      refine ⟨0, Nat.succ_pos _, ?_, ?_, ?_⟩
      · exact hq.symm
      · intro i hi hik; exact absurd hik (Nat.not_lt_zero _)
      · simp only [List.foldl_cons, hstep]
        exact foldl_bestStep_stay t q (fun p hp => le_trans (le_maxScore p hp) h1)
    · push_neg at h1
      have hq : maxScore (q :: t) = maxScore t := by
        rw [hm]; exact max_eq_right (le_of_lt h1)
      have hacc2 : (bestStep acc q).2 < maxScore t := by
        unfold bestStep
        by_cases hcmp : q.2 > acc.2
        · rw [if_pos hcmp]; exact h1
        · rw [if_neg hcmp]; rw [hq] at hacc; exact hacc
      rcases ih (bestStep acc q) hacc2 with ⟨k, hk, hkmax, hearlier, heq⟩
      refine ⟨k + 1, Nat.succ_lt_succ hk, ?_, ?_, ?_⟩
      · rw [hq]; exact hkmax
      · intro i hi hik
        cases i with
        | zero => rw [hq]; exact h1
        | succ i' =>
          rw [hq]
          exact hearlier i' (Nat.lt_of_succ_lt_succ hi) (Nat.lt_of_succ_lt_succ hik)
      · simp only [List.foldl_cons]
        exact heq

lemma bestOf_eq_fallback (pairs : List (String × Nat)) (fb : String)
    (h : ∀ p ∈ pairs, p.2 = 0) : bestOf pairs fb = (fb, 0) :=
  foldl_bestStep_stay pairs (fb, 0) (fun p hp => le_of_eq (h p hp))

lemma bestOf_first_max (pairs : List (String × Nat)) (fb : String)
    (h : 0 < maxScore pairs) :
    ∃ k, ∃ hk : k < pairs.length, (pairs.get ⟨k, hk⟩).2 = maxScore pairs ∧
      (∀ i (hi : i < pairs.length), i < k → (pairs.get ⟨i, hi⟩).2 < maxScore pairs) ∧
      bestOf pairs fb = pairs.get ⟨k, hk⟩ :=
  foldl_bestStep_first_max pairs (fb, 0) h

lemma countHits_eq_zero {text : String} {kws : List String}
    (h : ∀ kw ∈ kws, jsIncludes text kw = false) : countHits text kws = 0 := by
  unfold countHits
  rw [List.length_eq_zero, List.filter_eq_nil_iff]
  intro a ha
  simp [h a ha]

/-! ### Claim theorems -/

/-- C1. Fallback completeness: for both taxonomy instances, an input whose
case-folded text contains no trigger keyword of any category (so every raw
score is 0) is classified as the fallback category: `"General"` for
`classifyTicket` and `"Other"` for `categorizeExpense`, for any jitter. -/
theorem C1_fallback_completeness :
    (∀ s d j, (∀ p ∈ ticketCategories, ∀ kw ∈ p.2.keywords,
        jsIncludes (jsToLower (s ++ " " ++ d)) kw = false) →
      (classifyTicket s d j).category = "General")
    ∧ (∀ d j, (∀ p ∈ categoryKeywords, ∀ kw ∈ p.2,
        jsIncludes (jsToLower d) kw = false) →
      (categorizeExpense d j).category = "Other") := by
  constructor
  · intro s d j h
    have hz : ∀ p ∈ scoredTickets (jsToLower (s ++ " " ++ d)), p.2 = 0 := by
      intro p hp
      rcases List.mem_map.mp hp with ⟨c, hc, rfl⟩
      exact countHits_eq_zero (h c hc)
    show (bestOf (scoredTickets (jsToLower (s ++ " " ++ d))) "General").1 = "General"
    rw [bestOf_eq_fallback _ _ hz]
  · intro d j h
    have hz : ∀ p ∈ scoredExpenses (jsToLower d), p.2 = 0 := by
      intro p hp
      rcases List.mem_map.mp hp with ⟨c, hc, rfl⟩
      exact countHits_eq_zero (h c hc)
    show (bestOf (scoredExpenses (jsToLower d)) "Other").1 = "Other"
    rw [bestOf_eq_fallback _ _ hz]

/-- Witness for C1 at a concrete keyword-free input for each instance. -/
theorem C1_fallback_completeness_witness :
    (classifyTicket "zzz" "qqq" 3).category = "General"
    ∧ (categorizeExpense "zzz qqq" 3).category = "Other" :=
  ⟨C1_fallback_completeness.1 "zzz" "qqq" 3 (by decide),
   C1_fallback_completeness.2 "zzz qqq" 3 (by decide)⟩

/-- C2. Tie-break determinism: whenever two distinct positions in the scored
category list both attain the (positive) maximal keyword-hit count, the
classifier's selected category is the one at the earliest position attaining
the maximum (every strictly earlier position scores strictly below it), for
both taxonomy instances and independently of the jitter. -/
theorem C2_tie_break :
    (∀ s d j (i i' : ℕ) (hi : i < (ticketPairs s d).length)
        (hi' : i' < (ticketPairs s d).length), i ≠ i' →
        ((ticketPairs s d).get ⟨i, hi⟩).2 = maxScore (ticketPairs s d) →
        ((ticketPairs s d).get ⟨i', hi'⟩).2 = maxScore (ticketPairs s d) →
        0 < maxScore (ticketPairs s d) →
        ∃ k, ∃ hk : k < (ticketPairs s d).length,
          ((ticketPairs s d).get ⟨k, hk⟩).2 = maxScore (ticketPairs s d) ∧
          (∀ l (hl : l < (ticketPairs s d).length), l < k →
            ((ticketPairs s d).get ⟨l, hl⟩).2 < maxScore (ticketPairs s d)) ∧
          (classifyTicket s d j).category = ((ticketPairs s d).get ⟨k, hk⟩).1)
    ∧ (∀ d j (i i' : ℕ) (hi : i < (expensePairs d).length)
        (hi' : i' < (expensePairs d).length), i ≠ i' →
        ((expensePairs d).get ⟨i, hi⟩).2 = maxScore (expensePairs d) →
        ((expensePairs d).get ⟨i', hi'⟩).2 = maxScore (expensePairs d) →
        0 < maxScore (expensePairs d) →
        ∃ k, ∃ hk : k < (expensePairs d).length,
          ((expensePairs d).get ⟨k, hk⟩).2 = maxScore (expensePairs d) ∧
          (∀ l (hl : l < (expensePairs d).length), l < k →
            ((expensePairs d).get ⟨l, hl⟩).2 < maxScore (expensePairs d)) ∧
          (categorizeExpense d j).category = ((expensePairs d).get ⟨k, hk⟩).1) := by
  constructor
  · intro s d j i i' hi hi' hne hieq hieq' hpos
    rcases bestOf_first_max (ticketPairs s d) "General" hpos with ⟨k, hk, hkmax, hearlier, heq⟩
    refine ⟨k, hk, hkmax, hearlier, ?_⟩
    show (bestOf (scoredTickets (jsToLower (s ++ " " ++ d))) "General").1 = _
    rw [show scoredTickets (jsToLower (s ++ " " ++ d)) = ticketPairs s d from rfl, heq]
  · intro d j i i' hi hi' hne hieq hieq' hpos
    rcases bestOf_first_max (expensePairs d) "Other" hpos with ⟨k, hk, hkmax, hearlier, heq⟩
    refine ⟨k, hk, hkmax, hearlier, ?_⟩
    show (bestOf (scoredExpenses (jsToLower d)) "Other").1 = _
    rw [show scoredExpenses (jsToLower d) = expensePairs d from rfl, heq]

/-- Witness for C2: `"road water"` ties Infrastructure (index 0) and
Water Supply (index 1) at score 1 for tickets; `"book"` ties Entertainment
(index 4) and Education (index 6) at score 1 for expenses. -/
theorem C2_tie_break_witness :
    (∃ k, ∃ hk : k < (ticketPairs "road water" "").length,
      ((ticketPairs "road water" "").get ⟨k, hk⟩).2 = maxScore (ticketPairs "road water" "") ∧
      (∀ l (hl : l < (ticketPairs "road water" "").length), l < k →
        ((ticketPairs "road water" "").get ⟨l, hl⟩).2 < maxScore (ticketPairs "road water" "")) ∧
      (classifyTicket "road water" "" 3).category = ((ticketPairs "road water" "").get ⟨k, hk⟩).1)
    ∧ (∃ k, ∃ hk : k < (expensePairs "book").length,
      ((expensePairs "book").get ⟨k, hk⟩).2 = maxScore (expensePairs "book") ∧
      (∀ l (hl : l < (expensePairs "book").length), l < k →
        ((expensePairs "book").get ⟨l, hl⟩).2 < maxScore (expensePairs "book")) ∧
      (categorizeExpense "book" 3).category = ((expensePairs "book").get ⟨k, hk⟩).1) :=
  ⟨C2_tie_break.1 "road water" "" 3 0 1 (by decide) (by decide) (by decide)
      (by decide) (by decide) (by decide),
   C2_tie_break.2 "book" 3 4 6 (by decide) (by decide) (by decide)
      (by decide) (by decide) (by decide)⟩

/-- C3 counterexample: on the spec's own four-record batch the `anomalies`
computation returns the empty list, not a four-element list of flags, so the
output does not have the same length as the input. -/
theorem C3_shape_counterexample :
    ¬ ((anomalies demoFood).length = demoFood.length) := by
  have h : anomalies demoFood = [] := by
    norm_num [anomalies, anomaliesK, isAnomaly, amountsFor, popVar, popMean, demoFood, List.filter]
  rw [h, demoFood]
  norm_num

/-- C3 amended: the anomaly computation returns exactly the flagged subset of
its input, in input order — a sublist of the batch, not a same-length list of
per-record flags. -/
theorem C3_flag_subset (recs : List Categorized) :
    (anomalies recs).Sublist recs :=
  List.filter_sublist recs

lemma isAnomaly_of_small_group (recs : List Categorized) (k : ℚ) (e : Categorized)
    (h : (amountsFor recs e.category).length < 2) : isAnomaly recs k e = false := by
  unfold isAnomaly
  rw [if_pos h]

/-- C4. Group-size guard: a record whose category is shared by fewer than two
records of the batch is never flagged by `anomalies`; in particular singleton
groups never flag. -/
theorem C4_group_size_guard (recs : List Categorized) (e : Categorized)
    (h : (amountsFor recs e.category).length < 2) : e ∉ anomalies recs := by
  intro hmem
  have hflag : isAnomaly recs 2 e = true := (List.mem_filter.mp hmem).2
  rw [isAnomaly_of_small_group recs 2 e h] at hflag
  exact Bool.false_ne_true hflag

/-- Witness for C4: a 500-valued singleton group is not flagged. -/
theorem C4_group_size_guard_witness :
    (⟨"rent", 500, "A", 0⟩ : Categorized) ∉ anomalies [⟨"rent", 500, "A", 0⟩] :=
  C4_group_size_guard [⟨"rent", 500, "A", 0⟩] ⟨"rent", 500, "A", 0⟩ (by decide)

/-- C5. Zero-spread guard: a record whose group has population variance 0
(equivalently population standard deviation 0: all amounts in the group are
equal) is never flagged by `anomalies`. -/
theorem C5_zero_spread_guard (recs : List Categorized) (e : Categorized)
    (h : popVar (amountsFor recs e.category) = 0) : e ∉ anomalies recs := by
  intro hmem
  have hflag : isAnomaly recs 2 e = true := (List.mem_filter.mp hmem).2
  unfold isAnomaly at hflag
  by_cases hlen : (amountsFor recs e.category).length < 2
  · rw [if_pos hlen] at hflag
    exact Bool.false_ne_true hflag
  · rw [if_neg hlen] at hflag
    have hp := of_decide_eq_true hflag
    rw [h] at hp
    exact lt_irrefl 0 hp.1

/-- Witness for C5: a two-record group with equal amounts never flags. -/
theorem C5_zero_spread_guard_witness :
    (⟨"a", 7, "B", 0⟩ : Categorized) ∉
      anomalies [⟨"a", 7, "B", 0⟩, ⟨"b", 7, "B", 0⟩] :=
  C5_zero_spread_guard [⟨"a", 7, "B", 0⟩, ⟨"b", 7, "B", 0⟩] ⟨"a", 7, "B", 0⟩
    (by norm_num [amountsFor, popVar, popMean])

lemma ticketConfidence_bounds (n : Nat) (j : ℚ) (hj : 0 ≤ j) :
    60 ≤ ticketConfidence n j ∧ ticketConfidence n j ≤ 95 := by
  unfold ticketConfidence
  refine ⟨le_min (by norm_num) ?_, min_le_left _ _⟩
  have hn : (0 : ℚ) ≤ (n : ℚ) * 12 := by positivity
  linarith

lemma expenseConfidence_bounds (n : Nat) (j : ℚ) (hj : 0 ≤ j) :
    50 ≤ expenseConfidence n j ∧ expenseConfidence n j ≤ 95 := by
  unfold expenseConfidence
  refine ⟨le_min (by norm_num) ?_, min_le_left _ _⟩
  have hn : (0 : ℚ) ≤ (n : ℚ) * 15 := by positivity
  linarith

/-- C6. Confidence bounds and monotonicity: the ticket confidence always lies
in [60, 95] and the expense confidence in [50, 95] for any nonnegative jitter
(the source's `Math.random() * 10`); the clamped fake-news score lies in
[5, 98] for any raw score and jitter; and with the jitter held fixed both
confidence formulas are monotonically non-decreasing in the winning raw
keyword-hit count. -/
theorem C6_confidence_bounds :
    (∀ s d j, 0 ≤ j →
      60 ≤ (classifyTicket s d j).confidence ∧ (classifyTicket s d j).confidence ≤ 95)
    ∧ (∀ d j, 0 ≤ j →
      50 ≤ (categorizeExpense d j).confidence ∧ (categorizeExpense d j).confidence ≤ 95)
    ∧ (∀ raw j, 5 ≤ newsScoreClamp raw j ∧ newsScoreClamp raw j ≤ 98)
    ∧ (∀ (m n : Nat) (j : ℚ), m ≤ n → ticketConfidence m j ≤ ticketConfidence n j)
    ∧ (∀ (m n : Nat) (j : ℚ), m ≤ n → expenseConfidence m j ≤ expenseConfidence n j) := by
  refine ⟨?_, ?_, ?_, ?_, ?_⟩
  · intro s d j hj
    exact ticketConfidence_bounds (bestOf (ticketPairs s d) "General").2 j hj
  · intro d j hj
    exact expenseConfidence_bounds (bestOf (expensePairs d) "Other").2 j hj
  · intro raw j
    unfold newsScoreClamp
    exact ⟨le_max_left _ _, max_le (by norm_num) (min_le_left _ _)⟩
  · intro m n j h
    unfold ticketConfidence
    apply min_le_min le_rfl
    have hc : (m : ℚ) ≤ (n : ℚ) := Nat.cast_le.mpr h
    nlinarith
  · intro m n j h
    unfold expenseConfidence
    apply min_le_min le_rfl
    have hc : (m : ℚ) ≤ (n : ℚ) := Nat.cast_le.mpr h
    nlinarith

/-- Witness for C6 at concrete inputs and jitters. -/
theorem C6_confidence_bounds_witness :
    (60 ≤ (classifyTicket "road" "water" 1).confidence
      ∧ (classifyTicket "road" "water" 1).confidence ≤ 95)
    ∧ (50 ≤ (categorizeExpense "pizza" 1).confidence
      ∧ (categorizeExpense "pizza" 1).confidence ≤ 95)
    ∧ (5 ≤ newsScoreClamp 70 (-5) ∧ newsScoreClamp 70 (-5) ≤ 98)
    ∧ ticketConfidence 1 1 ≤ ticketConfidence 2 1
    ∧ expenseConfidence 1 1 ≤ expenseConfidence 2 1 :=
  ⟨C6_confidence_bounds.1 "road" "water" 1 (by norm_num),
   C6_confidence_bounds.2.1 "pizza" 1 (by norm_num),
   C6_confidence_bounds.2.2.1 70 (-5),
   C6_confidence_bounds.2.2.2.1 1 2 1 (by norm_num),
   C6_confidence_bounds.2.2.2.2 1 2 1 (by norm_num)⟩

/-- C7. Outlier threshold example and monotonicity in the multiplier: in the
single-group batch with amounts 100, 105, 98, 950 the 950 record is not
flagged with multiplier `k = 2` but is flagged with `k = 1`, and in general
the flagged set shrinks (is contained in the smaller-`k` flagged set) as `k`
grows through nonnegative values. -/
theorem C7_outlier_threshold :
    rec950 ∉ anomaliesK 2 demoFood
    ∧ rec950 ∈ anomaliesK 1 demoFood
    ∧ (∀ (k1 k2 : ℚ) (recs : List Categorized) (e : Categorized),
        0 ≤ k1 → k1 ≤ k2 → e ∈ anomaliesK k2 recs → e ∈ anomaliesK k1 recs) := by
  refine ⟨?_, ?_, ?_⟩
  · norm_num [anomaliesK, isAnomaly, amountsFor, popVar, popMean, demoFood,
      rec950, List.filter]
  · norm_num [anomaliesK, isAnomaly, amountsFor, popVar, popMean, demoFood,
      rec950, List.filter]
  · intro k1 k2 recs e hk1 hk12 hmem
    obtain ⟨hin, hflag⟩ := List.mem_filter.mp hmem
    refine List.mem_filter.mpr ⟨hin, ?_⟩
    unfold isAnomaly at hflag ⊢
    by_cases hlen : (amountsFor recs e.category).length < 2
    · rw [if_pos hlen] at hflag
      exact absurd hflag Bool.false_ne_true
    · rw [if_neg hlen] at hflag ⊢
      have hp := of_decide_eq_true hflag
      apply decide_eq_true
      refine ⟨hp.1, lt_of_le_of_lt ?_ hp.2⟩
      have hvar : 0 ≤ popVar (amountsFor recs e.category) := le_of_lt hp.1
      have hsq : k1 ^ 2 ≤ k2 ^ 2 := by
        nlinarith [mul_nonneg (sub_nonneg.mpr hk12) (add_nonneg (le_trans hk1 hk12) hk1)]
      exact mul_le_mul_of_nonneg_right hsq hvar

/-- Witness for C7: the monotonicity part applied at `k1 = k2 = 1` to the
flagged 950 record. -/
theorem C7_outlier_threshold_witness :
    rec950 ∈ anomaliesK 1 demoFood :=
  C7_outlier_threshold.2.2 1 1 demoFood rec950 (by norm_num) le_rfl
    C7_outlier_threshold.2.1

/-- Justification that the square-root-free condition in `isAnomaly` is the
source's `std > 0 && |x - mean| > k * std` with `std = Math.sqrt(var)`:
over the reals the two are equivalent for nonnegative deviation, variance and
multiplier. -/
lemma sqrt_flag_iff_sq (d v k : ℝ) (hd : 0 ≤ d) (hv : 0 ≤ v) (hk : 0 ≤ k) :
    (0 < Real.sqrt v ∧ k * Real.sqrt v < d) ↔ (0 < v ∧ k ^ 2 * v < d ^ 2) := by
  have hs : 0 ≤ Real.sqrt v := Real.sqrt_nonneg v
  constructor
  · rintro ⟨h1, h2⟩
    refine ⟨Real.sqrt_pos.mp h1, ?_⟩
    have h3 : (k * Real.sqrt v) ^ 2 < d ^ 2 := by
      have hks : 0 ≤ k * Real.sqrt v := mul_nonneg hk hs
      nlinarith
    calc k ^ 2 * v = (k * Real.sqrt v) ^ 2 := by rw [mul_pow, Real.sq_sqrt hv]
      _ < d ^ 2 := h3
  · rintro ⟨h1, h2⟩
    refine ⟨Real.sqrt_pos.mpr h1, ?_⟩
    have h3 : (k * Real.sqrt v) ^ 2 < d ^ 2 := by
      rw [mul_pow, Real.sq_sqrt hv]; exact h2
    exact lt_of_pow_lt_pow_left₀ 2 hd h3

/-- Projection of a categorized record to the fields the anomaly computation
reads, plus its identity: description, amount, category (everything except
the jittered confidence). -/
def coreFields (r : Categorized) : String × ℚ × String :=
  (r.description, r.amount, r.category)

lemma mkCategorized_coreFields (e : Expense) (j1 j2 : ℚ) :
    coreFields (mkCategorized e j1) = coreFields (mkCategorized e j2) := rfl

lemma categorizedWith_coreFields (jit1 jit2 : ℕ → ℚ) (es : List Expense) :
    (categorizedWith jit1 es).map coreFields
      = (categorizedWith jit2 es).map coreFields := by
  induction es generalizing jit1 jit2 with
  | nil => rfl
  | cons e t ih =>
    simp only [categorizedWith, List.map_cons]
    rw [mkCategorized_coreFields e (jit1 0) (jit2 0)]
    exact congrArg _ (ih _ _)

lemma amountsFor_cons (r : Categorized) (t : List Categorized) (cat : String) :
    amountsFor (r :: t) cat =
      if r.category == cat then r.amount :: amountsFor t cat
      else amountsFor t cat := by
  unfold amountsFor
  by_cases hc : (r.category == cat) = true
  · rw [if_pos hc,
      @List.filter_cons_of_pos Categorized (fun x => x.category == cat) r t hc,
      List.map_cons]
  · rw [if_neg hc,
      @List.filter_cons_of_neg Categorized (fun x => x.category == cat) r t hc]

lemma amountsFor_of_map_eq :
    ∀ {l1 l2 : List Categorized}, l1.map coreFields = l2.map coreFields →
      ∀ cat : String, amountsFor l1 cat = amountsFor l2 cat := by
  intro l1
  induction l1 with
  | nil =>
    intro l2 h cat
    rw [List.map_nil] at h
    rw [(List.map_eq_nil_iff.mp h.symm)]
  | cons r t ih =>
    intro l2 h cat
    cases l2 with
    | nil => simp at h
    | cons r' t' =>
      simp only [List.map_cons, List.cons.injEq] at h
      obtain ⟨hr, ht⟩ := h
      have hcat : r.category = r'.category := congrArg (fun p => p.2.2) hr
      have hamt : r.amount = r'.amount := congrArg (fun p => p.2.1) hr
      rw [amountsFor_cons, amountsFor_cons, hcat, hamt, ih ht cat]

lemma isAnomaly_congr {l1 l2 : List Categorized} {e1 e2 : Categorized} (k : ℚ)
    (hmap : l1.map coreFields = l2.map coreFields)
    (he : coreFields e1 = coreFields e2) :
    isAnomaly l1 k e1 = isAnomaly l2 k e2 := by
  have hcat : e1.category = e2.category := congrArg (fun p => p.2.2) he
  have hamt : e1.amount = e2.amount := congrArg (fun p => p.2.1) he
  unfold isAnomaly
  rw [hcat, hamt, amountsFor_of_map_eq hmap e2.category]

lemma anomalies_filter_congr :
    ∀ (l1 l2 recs1 recs2 : List Categorized),
      recs1.map coreFields = recs2.map coreFields →
      l1.map coreFields = l2.map coreFields →
      (l1.filter (isAnomaly recs1 2)).map coreFields
        = (l2.filter (isAnomaly recs2 2)).map coreFields := by
  intro l1
  induction l1 with
  | nil =>
    intro l2 recs1 recs2 hrec h
    rw [List.map_nil] at h
    rw [(List.map_eq_nil_iff.mp h.symm)]
    rfl
  | cons a t ih =>
    intro l2 recs1 recs2 hrec h
    cases l2 with
    | nil => simp at h
    | cons b t' =>
      simp only [List.map_cons, List.cons.injEq] at h
      obtain ⟨hab, ht⟩ := h
      have hpa : isAnomaly recs1 2 a = isAnomaly recs2 2 b :=
        isAnomaly_congr 2 hrec hab
      by_cases hcase : isAnomaly recs1 2 a = true
      · have hb : isAnomaly recs2 2 b = true := by rw [← hpa]; exact hcase
        rw [List.filter_cons_of_pos hcase, List.filter_cons_of_pos hb]
        simp only [List.map_cons, hab]
        exact congrArg _ (ih t' recs1 recs2 hrec ht)
      · have hb : ¬ isAnomaly recs2 2 b = true := by rw [← hpa]; exact hcase
        rw [List.filter_cons_of_neg hcase, List.filter_cons_of_neg hb]
        exact ih t' recs1 recs2 hrec ht

/-- C8. Idempotence/reproducibility of flagging: recomputing the whole
categorize-then-flag pipeline over the same expense snapshot — with fresh
random confidence jitter on each run — flags exactly the same records (same
description, amount and category each time); the flagged set depends only on
the records' categories and amounts, never on the jittered confidence. -/
theorem C8_flagging_reproducible (es : List Expense) (jit1 jit2 : ℕ → ℚ) :
    (anomalies (categorizedWith jit1 es)).map coreFields
      = (anomalies (categorizedWith jit2 es)).map coreFields := by
  have h := categorizedWith_coreFields jit1 jit2 es
  exact anomalies_filter_congr _ _ _ _ h h

/-- C10. Jitter is confined to the confidence field: two invocations of
`classifyTicket` with the same subject and description but different random
jitters agree on category, priority, department, sentiment and
estimated_response (only the confidence may differ), and likewise two
invocations of `categorizeExpense` agree on the category. -/
theorem C10_jitter_isolation (s d : String) (j1 j2 : ℚ) :
    (classifyTicket s d j1).category = (classifyTicket s d j2).category
    ∧ (classifyTicket s d j1).priority = (classifyTicket s d j2).priority
    ∧ (classifyTicket s d j1).department = (classifyTicket s d j2).department
    ∧ (classifyTicket s d j1).sentiment = (classifyTicket s d j2).sentiment
    ∧ (classifyTicket s d j1).estimated_response
        = (classifyTicket s d j2).estimated_response
    ∧ (∀ dd : String,
        (categorizeExpense dd j1).category = (categorizeExpense dd j2).category) :=
  ⟨rfl, rfl, rfl, rfl, rfl, fun _ => rfl⟩

/-- C9. Totality on edge inputs: empty subject and description classify to
the fallback `"General"` (and an empty expense description to `"Other"`) for
any jitter; the empty batch and every single-record batch produce no flags;
every flagged record is one of the input records; and the category-attribute
lookup inside `classifyTicket` always succeeds (the selected name is always a
key of the taxonomy), so no input makes any of these computations fail. -/
theorem C9_totality :
    (∀ j : ℚ, (classifyTicket "" "" j).category = "General")
    ∧ (∀ j : ℚ, (categorizeExpense "" j).category = "Other")
    ∧ anomalies [] = []
    ∧ (∀ r : Categorized, anomalies [r] = [])
    ∧ (∀ (recs : List Categorized) (e : Categorized), e ∈ anomalies recs → e ∈ recs)
    ∧ (∀ s d : String,
        ((ticketCategories.lookup (bestOf (ticketPairs s d) "General").1).isSome)
          = true) := by
  refine ⟨?_, ?_, ?_, ?_, ?_, ?_⟩
  · intro j; rfl
  · intro j; rfl
  · rfl
  · intro r
    have hflag : isAnomaly [r] 2 r = false := by
      apply isAnomaly_of_small_group
      simp [amountsFor]
    show List.filter (isAnomaly [r] 2) [r] = []
    rw [List.filter_cons_of_neg (by rw [hflag]; exact Bool.false_ne_true)]
    rfl
  · intro recs e hmem
    exact List.mem_of_mem_filter hmem
  · intro s d
    rcases foldl_bestStep_mem (ticketPairs s d) ("General", 0) with h | h
    · show ((ticketCategories.lookup (List.foldl bestStep ("General", 0)
        (ticketPairs s d)).1).isSome) = true
      rw [h]
      decide
    · rcases List.mem_map.mp h with ⟨c, hc, hceq⟩
      show ((ticketCategories.lookup (List.foldl bestStep ("General", 0)
        (ticketPairs s d)).1).isSome) = true
      have hfst : (List.foldl bestStep ("General", 0) (ticketPairs s d)).1 = c.1 := by
        rw [← hceq]
      rw [hfst]
      fin_cases hc <;> decide

/-- Witness for C9: the flagged-records-are-input-records part applied to a
six-record batch whose 100-amount record is actually flagged. -/
theorem C9_totality_witness :
    (⟨"f", 100, "A", 0⟩ : Categorized) ∈
      ([⟨"a", 10, "A", 0⟩, ⟨"b", 10, "A", 0⟩, ⟨"c", 10, "A", 0⟩,
        ⟨"d", 10, "A", 0⟩, ⟨"e", 10, "A", 0⟩, ⟨"f", 100, "A", 0⟩] :
        List Categorized) :=
  C9_totality.2.2.2.2.1
    [⟨"a", 10, "A", 0⟩, ⟨"b", 10, "A", 0⟩, ⟨"c", 10, "A", 0⟩,
     ⟨"d", 10, "A", 0⟩, ⟨"e", 10, "A", 0⟩, ⟨"f", 100, "A", 0⟩]
    ⟨"f", 100, "A", 0⟩
    (by norm_num [anomalies, anomaliesK, isAnomaly, amountsFor, popVar, popMean,
      List.filter])

end Citadel
